import Mathlib

/-!
Shallow embedding of the shadcn date-picker component (src/unnamed/part_000).

The component is a React function; its state lives in seven useState slots
and its behavior in a handful of handlers.  We embed the state as a
structure `PickerState` and each handler as a pure function
`PickerState → ... → PickerState × Emitted`, where `Emitted` records
whether `onValueChange` was invoked and with which payload.

The date-arithmetic collaborator (date-fns over JS Date) is embedded as
proleptic-Gregorian calendar arithmetic on (year, month, day) triples with
a 0-based month index, matching JS Date conventions.  A JS Date produced
by `new Date(year, monthIndex, day)` is a local-midnight timestamp, so
`isAfter` on such dates is strict comparison of their day numbers and
`isSameDay` is equality of the (normalized) triples.
-/

/-- A calendar day: year, 0-based month index (0 = January, as in JS
Date.getMonth), 1-based day of month. -/
structure CalDay where
  year : Nat
  month : Nat
  day : Nat
deriving DecidableEq, Repr

/-- Gregorian leap-year rule, as implemented by JS Date. -/
def isLeapYear (y : Nat) : Bool :=
  (y % 4 == 0 && y % 100 != 0) || y % 400 == 0

/-- Length of the month with 0-based index m in a (non-)leap year. -/
def monthLength (leap : Bool) (m : Nat) : Nat :=
  match m with
  | 0 => 31
  | 1 => if leap then 29 else 28
  | 2 => 31
  | 3 => 30
  | 4 => 31
  | 5 => 30
  | 6 => 31
  | 7 => 31
  | 8 => 30
  | 9 => 31
  | 10 => 30
  | _ => 31

/-- Days in the months strictly before month index m of a year. -/
def daysBeforeMonth (leap : Bool) (m : Nat) : Nat :=
  (List.range m).foldl (fun acc i => acc + monthLength leap i) 0

/-- Days in the proleptic Gregorian calendar strictly before January 1 of
year y (year 1 is the first year; `daysBeforeYear 1 = 0`).  The classic
formula 365n + n/4 − n/100 + n/400 with n = y − 1, rearranged so the Nat
subtraction is exact.  Anchor check: `daysBeforeYear 1970 = 719162`, and
1970-01-01 was a Thursday. -/
def daysBeforeYear (y : Nat) : Nat :=
  365 * (y - 1) + (y - 1) / 4 + (y - 1) / 400 - (y - 1) / 100

/-- Day number of a calendar day: days since 0001-01-01 (proleptic
Gregorian).  Plays the role of the JS Date timestamp (at local midnight),
up to the affine change of scale. -/
def toDays (d : CalDay) : Nat :=
  daysBeforeYear d.year + daysBeforeMonth (isLeapYear d.year) d.month + (d.day - 1)

/-- Weekday with JS getDay convention: 0 = Sunday .. 6 = Saturday.
0001-01-01 (day number 0) was a Monday, hence the +1 offset; anchor check:
`dayOfWeek ⟨1970, 0, 1⟩ = 4` (a Thursday). -/
def dayOfWeek (d : CalDay) : Nat :=
  (toDays d + 1) % 7

/-- date-fns getDaysInMonth for the month with 0-based index m of year y. -/
def getDaysInMonth (y m : Nat) : Nat :=
  monthLength (isLeapYear y) m

/-- date-fns startOfMonth: day 1 of the month of the given date. -/
def startOfMonth (y m : Nat) : CalDay :=
  ⟨y, m, 1⟩

/-- date-fns getDay: the weekday index, 0 = Sunday. -/
def getDay (d : CalDay) : Nat :=
  dayOfWeek d

/-- date-fns isAfter(date, dateToCompare): date is strictly later.  On the
local-midnight dates the component builds, this is strict comparison of day
numbers. -/
def isAfter (d dateToCompare : CalDay) : Bool :=
  decide (toDays dateToCompare < toDays d)

/-- date-fns isSameDay.  The component only compares normalized
(grid-cell) dates, for which same calendar day is equality of triples. -/
def isSameDay (a b : CalDay) : Bool :=
  a.year == b.year && a.month == b.month && a.day == b.day

/-- The calendarDays memo of the component for the month with 0-based
index m of year y: push `startDay` empty cells (null ↦ none), then one
cell per day 1..daysInMonth holding `new Date(year, month, day)`.
Mirrors the two imperative push loops as folds over ranges. -/
def calendarDays (y m : Nat) : List (Option CalDay) :=
  let daysInMonth := getDaysInMonth y m
  let startDay := getDay (startOfMonth y m)
  let days : List (Option CalDay) := []
  let days := (List.range startDay).foldl (fun acc _ => acc ++ [none]) days
  let days := (List.range daysInMonth).foldl
    (fun acc i => acc ++ [some (⟨y, m, i + 1⟩ : CalDay)]) days
  days

lemma foldl_snoc_const {α : Type} (x : α) :
    ∀ (n : Nat) (init : List α),
      (List.range n).foldl (fun acc _ => acc ++ [x]) init =
        init ++ List.replicate n x := by
  intro n
  induction n with
  | zero => intro init; simp
  | succ k ih =>
      intro init
      rw [List.range_succ, List.foldl_append]
      simp [ih, List.replicate_succ' k x]

lemma foldl_snoc_map {α : Type} (f : Nat → α) :
    ∀ (n : Nat) (init : List α),
      (List.range n).foldl (fun acc i => acc ++ [f i]) init =
        init ++ (List.range n).map f := by
  intro n
  induction n with
  | zero => intro init; simp
  | succ k ih =>
      intro init
      rw [List.range_succ, List.foldl_append, List.map_append]
      simp [ih]

lemma calendarDays_eq (y m : Nat) :
    calendarDays y m =
      List.replicate (getDay (startOfMonth y m)) none ++
        (List.range (getDaysInMonth y m)).map
          (fun i => some (⟨y, m, i + 1⟩ : CalDay)) := by
  simp only [calendarDays, foldl_snoc_const, foldl_snoc_map, List.nil_append]

lemma countP_replicate_none (n : Nat) :
    (List.replicate n (none : Option CalDay)).countP (fun c => c.isSome) = 0 := by
  induction n with
  | zero => rfl
  | succ k ih => simp [List.replicate_succ, List.countP_cons, ih]

lemma countP_map_some {α : Type} (l : List Nat) (f : Nat → α) :
    (l.map (fun i => some (f i))).countP (fun c => c.isSome) = l.length := by
  induction l with
  | nil => rfl
  | cons a t ih => simp [List.countP_cons, ih]

/-- C1 counterexample: for March 2024 (month index 2) the first of the
month is a Friday (weekday 5) and the month has 31 days, so the
calendarDays sequence has length 36, which is not a multiple of 7. -/
theorem calendarDays_march2024_not_multiple_of_seven :
    (calendarDays 2024 2).length = 36 ∧ ¬ (calendarDays 2024 2).length % 7 = 0 := by
  decide

/-- C1 (amended): for every year and month, the calendarDays sequence has
length equal to the weekday index of the first day of the month plus the number
of days in the month; no trailing padding is added, so the length is not in
general a multiple of 7. -/
theorem calendarDays_length_eq_startDay_add_daysInMonth (y m : Nat) :
    (calendarDays y m).length = getDay (startOfMonth y m) + getDaysInMonth y m := by
  rw [calendarDays_eq]
  simp

/-- C6: for every year and month, calendarDays is exactly
`getDay (startOfMonth y m)` leading placeholder cells — the weekday index
(0 = Sunday) of day 1 of the month — followed by one Day cell per calendar
day 1..N where N = getDaysInMonth y m; the non-placeholder cell count is N,
and February (month index 1) has 29 days in leap years, 28 otherwise. -/
theorem calendarDays_structure (y m : Nat) :
    calendarDays y m =
        List.replicate (getDay (startOfMonth y m)) none ++
          (List.range (getDaysInMonth y m)).map
            (fun i => some (⟨y, m, i + 1⟩ : CalDay)) ∧
      (calendarDays y m).countP (fun c => c.isSome) = getDaysInMonth y m ∧
      getDaysInMonth y 1 = (if isLeapYear y then 29 else 28) := by
  refine ⟨calendarDays_eq y m, ?_, ?_⟩
  · rw [calendarDays_eq, List.countP_append, countP_replicate_none,
      countP_map_some]
    simp
  · rfl

/-- The value payload shapes a consumer can receive or supply: a plain
Date (single) or a {from, to} range object with independently optional
endpoints. -/
inductive DateValue where
  | singleD (d : CalDay)
  | rangeD (fromD toD : Option CalDay)
deriving DecidableEq, Repr

/-- Whether onValueChange was invoked by a handler, and with which
payload (`value none` models a call with undefined). -/
inductive Emitted where
  | silent
  | value (v : Option DateValue)
deriving DecidableEq, Repr

/-- The useState slots of the DatePicker component that the selection
logic reads and writes.  `selectedDate` and `currentMonth` are typed
DateValue in the source (selectedDate: DateValue | undefined), so they are
embedded at that type even though interaction only ever stores plain
dates in them. -/
structure PickerState where
  selectedDate : Option DateValue
  currentMonth : DateValue
  isOpen : Bool
  isRangeMode : Bool
  rangeStart : Option CalDay
  rangeEnd : Option CalDay
  rangeHover : Option CalDay
deriving DecidableEq, Repr

/-- handleSelect: single mode commits the day, moves the cursor, emits it
and closes; range mode starts a fresh range when no start exists or both
endpoints exist, and otherwise completes the range in sorted order,
emitting {from, to} and closing.  The final fallthrough mirrors the
exhausted if and else-if chain of the source (unreachable given the guards). -/
def handleSelect (s : PickerState) (day : CalDay) : PickerState × Emitted :=
  if s.isRangeMode = false then
    ({ s with
        selectedDate := some (DateValue.singleD day)
        currentMonth := DateValue.singleD day
        isOpen := false },
      Emitted.value (some (DateValue.singleD day)))
  else
    if s.rangeStart.isNone || (s.rangeStart.isSome && s.rangeEnd.isSome) then
      ({ s with rangeStart := some day, rangeEnd := none, rangeHover := none },
        Emitted.silent)
    else
      match s.rangeStart, s.rangeEnd with
      | some start, none =>
          let isAfterStart := isAfter day start
          let newFrom := if isAfterStart then start else day
          let newTo := if isAfterStart then day else start
          ({ s with
              rangeStart := some newFrom
              rangeEnd := some newTo
              isOpen := false },
            Emitted.value (some (DateValue.rangeD (some newFrom) (some newTo))))
      | _, _ => (s, Emitted.silent)

/-- handleDayHover: records the hovered day as the provisional range end,
but only in range mode with a start selected and no end yet; otherwise it
does nothing.  It never invokes onValueChange. -/
def handleDayHover (s : PickerState) (day : CalDay) : PickerState :=
  if s.isRangeMode && s.rangeStart.isSome && s.rangeEnd.isNone then
    { s with rangeHover := some day }
  else
    s

/-- A sequence of hover events folded over the state. -/
def hoverSeq (s : PickerState) (days : List CalDay) : PickerState :=
  days.foldl handleDayHover s

/-- isRangeStart: false outside range mode or without a stored start,
else same-day comparison of the day against rangeStart. -/
def isRangeStart (s : PickerState) (day : CalDay) : Bool :=
  if s.isRangeMode = false then false
  else
    match s.rangeStart with
    | none => false
    | some r => isSameDay day r

/-- isRangeEnd: false outside range mode or without a stored end, else
same-day comparison of the day against rangeEnd. -/
def isRangeEnd (s : PickerState) (day : CalDay) : Bool :=
  if s.isRangeMode = false then false
  else
    match s.rangeEnd with
    | none => false
    | some r => isSameDay day r

/-- The Switch onCheckedChange handler rendered in duo mode: flips the
sub-mode flag; on entering range mode emits the {from, to} pair when both
endpoints exist (else undefined) and moves the cursor to the range start
when one exists; on leaving range mode emits selectedDate as-is and moves
the cursor to it when present. -/
def setRangeMode (s : PickerState) (isChecked : Bool) : PickerState × Emitted :=
  if isChecked then
    let emit := Emitted.value
      (match s.rangeStart, s.rangeEnd with
        | some f, some t => some (DateValue.rangeD (some f) (some t))
        | _, _ => none)
    let s1 := { s with isRangeMode := true }
    match s.rangeStart with
    | some r => ({ s1 with currentMonth := DateValue.singleD r }, emit)
    | none => (s1, emit)
  else
    let s1 := { s with isRangeMode := false }
    match s.selectedDate with
    | some v => ({ s1 with currentMonth := v }, Emitted.value (some v))
    | none => (s1, Emitted.value none)

/-- handleReset: inert when the consumer registered no onReset handler;
otherwise clears the slots of the active engine and emits undefined (single
mode) or a {from: undefined, to: undefined} range (range mode). -/
def handleReset (hasResetHandler : Bool) (s : PickerState) : PickerState × Emitted :=
  if hasResetHandler = false then
    (s, Emitted.silent)
  else
    if s.isRangeMode = false then
      ({ s with selectedDate := none }, Emitted.value none)
    else
      ({ s with rangeStart := none, rangeEnd := none, rangeHover := none },
        Emitted.value (some (DateValue.rangeD none none)))

/-- JS typeof on a controlled value: both a Date instance and a range
object literal are of typeof object, so this is constantly true on
DateValue. -/
def typeofIsObject : DateValue → Bool :=
  fun _ => true

/-- The JS test (quote from in quote) value: a Date instance has no such
own or inherited property; the range literal type declares it. -/
def hasFromKey : DateValue → Bool
  | DateValue.singleD _ => false
  | DateValue.rangeD _ _ => true

/-- The useEffect that synchronizes the controlled value prop into the
range slots: a truthy non-object value would be written to rangeStart
with rangeEnd cleared (branch unreachable for DateValue inputs, kept to
mirror the source), a value owning a from key copies from/to into the
range slots, and anything else leaves the state alone. -/
def valueSyncEffect (value : Option DateValue) (s : PickerState) : PickerState :=
  match value with
  | none => s
  | some v =>
      if typeofIsObject v = false then
        match v with
        | DateValue.singleD d => { s with rangeStart := some d, rangeEnd := none }
        | DateValue.rangeD _ _ => s
      else if hasFromKey v then
        match v with
        | DateValue.rangeD f t => { s with rangeStart := f, rangeEnd := t }
        | DateValue.singleD _ => s
      else
        s

def d20240101 : CalDay := ⟨2024, 0, 1⟩

def d20240305 : CalDay := ⟨2024, 2, 5⟩

def d20240310 : CalDay := ⟨2024, 2, 10⟩

/-- A range-mode state with no selection in progress (Empty). -/
def emptyRangeState : PickerState :=
  { selectedDate := none
    currentMonth := DateValue.singleD ⟨2024, 2, 1⟩
    isOpen := true
    isRangeMode := true
    rangeStart := none
    rangeEnd := none
    rangeHover := none }

/-- A range-mode state holding a committed Complete range. -/
def completeRangeState : PickerState :=
  { selectedDate := none
    currentMonth := DateValue.singleD ⟨2024, 2, 1⟩
    isOpen := true
    isRangeMode := true
    rangeStart := some d20240305
    rangeEnd := some d20240310
    rangeHover := none }

/-- A range-mode state mid-selection with an active hover preview. -/
def hoverPreviewState : PickerState :=
  { selectedDate := none
    currentMonth := DateValue.singleD ⟨2024, 2, 1⟩
    isOpen := true
    isRangeMode := true
    rangeStart := some d20240305
    rangeEnd := none
    rangeHover := some d20240310 }

/-- A duo-mode state in the single sub-mode holding the single value
2024-01-01 and no range progress (Scenario B). -/
def duoSingleState : PickerState :=
  { selectedDate := some (DateValue.singleD d20240101)
    currentMonth := DateValue.singleD d20240101
    isOpen := true
    isRangeMode := false
    rangeStart := none
    rangeEnd := none
    rangeHover := none }

lemma handleSelect_fresh (s : PickerState) (day : CalDay)
    (hm : s.isRangeMode = true)
    (h0 : s.rangeStart = none ∨ (∃ f t, s.rangeStart = some f ∧ s.rangeEnd = some t)) :
    handleSelect s day =
      ({ s with rangeStart := some day, rangeEnd := none, rangeHover := none },
        Emitted.silent) := by
  rcases h0 with h | ⟨f, t, h1, h2⟩
  · simp [handleSelect, hm, h]
  · simp [handleSelect, hm, h1, h2]

lemma handleSelect_complete (s : PickerState) (day a : CalDay)
    (hm : s.isRangeMode = true) (h1 : s.rangeStart = some a)
    (h2 : s.rangeEnd = none) :
    handleSelect s day =
      ({ s with
          rangeStart := some (if isAfter day a then a else day)
          rangeEnd := some (if isAfter day a then day else a)
          isOpen := false },
        Emitted.value (some (DateValue.rangeD
          (some (if isAfter day a then a else day))
          (some (if isAfter day a then day else a))))) := by
  simp [handleSelect, hm, h1, h2]

/-- C2: in range mode, two clicks a then b starting from an Empty or
Complete state commit the ordered range (earlier day as from, later as
to), so from is at most to regardless of click order; the committed range
is emitted via onValueChange and the panel is closed. -/
theorem rangeClicks_commit_ordered (s : PickerState) (a b : CalDay)
    (hm : s.isRangeMode = true)
    (h0 : s.rangeStart = none ∨ (∃ f t, s.rangeStart = some f ∧ s.rangeEnd = some t)) :
    (handleSelect (handleSelect s a).1 b).1.rangeStart
        = some (if isAfter b a then a else b) ∧
      (handleSelect (handleSelect s a).1 b).1.rangeEnd
        = some (if isAfter b a then b else a) ∧
      (handleSelect (handleSelect s a).1 b).2
        = Emitted.value (some (DateValue.rangeD
            (some (if isAfter b a then a else b))
            (some (if isAfter b a then b else a)))) ∧
      toDays (if isAfter b a then a else b)
        ≤ toDays (if isAfter b a then b else a) ∧
      (handleSelect (handleSelect s a).1 b).1.isOpen = false := by
  have hf : (handleSelect s a).1
      = { s with rangeStart := some a, rangeEnd := none, rangeHover := none } := by
    rw [handleSelect_fresh s a hm h0]
  rw [hf]
  rw [handleSelect_complete
    { s with rangeStart := some a, rangeEnd := none, rangeHover := none } b a hm rfl rfl]
  refine ⟨rfl, rfl, rfl, ?_, rfl⟩
  by_cases hab : isAfter b a = true
  · simp only [hab, if_true]
    simp only [isAfter, decide_eq_true_eq] at hab
    exact Nat.le_of_lt hab
  · simp only [hab, if_false]
    simp only [isAfter, decide_eq_true_eq] at hab
    exact Nat.le_of_not_lt hab

/-- C2 witness: clicking 2024-03-10 then 2024-03-05 from the Empty range
state commits from = 2024-03-05, to = 2024-03-10, emits that range, and
closes the panel. -/
theorem rangeClicks_commit_ordered_witness :
    (handleSelect (handleSelect emptyRangeState d20240310).1 d20240305).1.rangeStart
        = some d20240305 ∧
      (handleSelect (handleSelect emptyRangeState d20240310).1 d20240305).1.rangeEnd
        = some d20240310 ∧
      (handleSelect (handleSelect emptyRangeState d20240310).1 d20240305).2
        = Emitted.value (some (DateValue.rangeD (some d20240305) (some d20240310))) ∧
      (handleSelect (handleSelect emptyRangeState d20240310).1 d20240305).1.isOpen
        = false := by
  obtain ⟨h1, h2, h3, _, h5⟩ :=
    rangeClicks_commit_ordered emptyRangeState d20240310 d20240305 rfl (Or.inl rfl)
  have hlt : isAfter d20240305 d20240310 = false := by decide
  rw [hlt] at h1 h2 h3
  simp only [Bool.false_eq_true, if_false] at h1 h2 h3
  exact ⟨h1, h2, h3, h5⟩

/-- C7: in range mode, a click while the range state is Empty or Complete
transitions to StartSelected(day) with the hover preview cleared, emits no
value-changed signal, and leaves the open state of the panel untouched. -/
theorem freshClick_starts_range_silently (s : PickerState) (day : CalDay)
    (hm : s.isRangeMode = true)
    (h0 : s.rangeStart = none ∨ (∃ f t, s.rangeStart = some f ∧ s.rangeEnd = some t)) :
    handleSelect s day =
        ({ s with rangeStart := some day, rangeEnd := none, rangeHover := none },
          Emitted.silent) ∧
      (handleSelect s day).1.isOpen = s.isOpen := by
  have h := handleSelect_fresh s day hm h0
  exact ⟨h, by rw [h]⟩

/-- C7 witness: clicking 2024-03-10 in a Complete range state restarts
the selection at that day with the hover cleared, emits nothing, and the
panel stays open. -/
theorem freshClick_starts_range_silently_witness :
    handleSelect completeRangeState d20240310 =
        ({ completeRangeState with
            rangeStart := some d20240310
            rangeEnd := none
            rangeHover := none },
          Emitted.silent) ∧
      (handleSelect completeRangeState d20240310).1.isOpen
        = completeRangeState.isOpen :=
  freshClick_starts_range_silently completeRangeState d20240310 rfl
    (Or.inr ⟨d20240305, d20240310, rfl, rfl⟩)

lemma handleDayHover_frame (t : PickerState) (d : CalDay) :
    ∃ h, handleDayHover t d = { t with rangeHover := h } := by
  unfold handleDayHover
  split
  · exact ⟨some d, rfl⟩
  · exact ⟨t.rangeHover, rfl⟩

lemma hoverSeq_frame (days : List CalDay) :
    ∀ t : PickerState, ∃ h, hoverSeq t days = { t with rangeHover := h } := by
  induction days with
  | nil => exact fun t => ⟨t.rangeHover, rfl⟩
  | cons d rest ih =>
      intro t
      obtain ⟨h1, e1⟩ := handleDayHover_frame t d
      obtain ⟨h2, e2⟩ := ih (handleDayHover t d)
      exact ⟨h2, by rw [show hoverSeq t (d :: rest) = hoverSeq (handleDayHover t d) rest from rfl, e2, e1]⟩

/-- C8: handleDayHover never modifies the committed endpoints, it is an
identity in Empty or Complete states, and any sequence of hovers between
the two clicks of a range selection leaves the committed endpoints, the
emitted value, and the panel close of the second click exactly as they
would be with no hovers at all. -/
theorem hover_preserves_committed_range (s : PickerState) (a b : CalDay)
    (days : List CalDay)
    (hm : s.isRangeMode = true)
    (h0 : s.rangeStart = none ∨ (∃ f t, s.rangeStart = some f ∧ s.rangeEnd = some t)) :
    (∀ (t : PickerState) (d : CalDay),
        (handleDayHover t d).rangeStart = t.rangeStart ∧
          (handleDayHover t d).rangeEnd = t.rangeEnd) ∧
      (∀ (t : PickerState) (d : CalDay),
        t.rangeStart = none ∨ t.rangeEnd ≠ none → handleDayHover t d = t) ∧
      ((handleSelect (hoverSeq (handleSelect s a).1 days) b).1.rangeStart
          = (handleSelect (handleSelect s a).1 b).1.rangeStart ∧
        (handleSelect (hoverSeq (handleSelect s a).1 days) b).1.rangeEnd
          = (handleSelect (handleSelect s a).1 b).1.rangeEnd ∧
        (handleSelect (hoverSeq (handleSelect s a).1 days) b).2
          = (handleSelect (handleSelect s a).1 b).2 ∧
        (handleSelect (hoverSeq (handleSelect s a).1 days) b).1.isOpen
          = (handleSelect (handleSelect s a).1 b).1.isOpen) := by
  refine ⟨?_, ?_, ?_⟩
  · intro t d
    obtain ⟨h, e⟩ := handleDayHover_frame t d
    rw [e]
    exact ⟨rfl, rfl⟩
  · intro t d hc
    rcases hc with h | h
    · simp [handleDayHover, h]
    · cases he : t.rangeEnd with
      | none => exact absurd he h
      | some v => simp [handleDayHover, he]
  · have hf : (handleSelect s a).1
        = { s with rangeStart := some a, rangeEnd := none, rangeHover := none } := by
      rw [handleSelect_fresh s a hm h0]
    rw [hf]
    obtain ⟨hh, eh⟩ :=
      hoverSeq_frame days { s with rangeStart := some a, rangeEnd := none, rangeHover := none }
    rw [eh]
    rw [handleSelect_complete
      { s with rangeStart := some a, rangeEnd := none, rangeHover := hh } b a hm rfl rfl]
    rw [handleSelect_complete
      { s with rangeStart := some a, rangeEnd := none, rangeHover := none } b a hm rfl rfl]
    exact ⟨rfl, rfl, rfl, rfl⟩

/-- C8 witness: with two hovers interposed between the clicks 2024-03-10
and 2024-03-05 from the Empty range state, the committed endpoints, the
emitted value, and the panel close equal the hover-free outcome. -/
theorem hover_preserves_committed_range_witness :
    (handleSelect (hoverSeq (handleSelect emptyRangeState d20240310).1
          [⟨2024, 2, 7⟩, ⟨2024, 2, 20⟩]) d20240305).1.rangeStart
        = (handleSelect (handleSelect emptyRangeState d20240310).1 d20240305).1.rangeStart ∧
      (handleSelect (hoverSeq (handleSelect emptyRangeState d20240310).1
          [⟨2024, 2, 7⟩, ⟨2024, 2, 20⟩]) d20240305).1.rangeEnd
        = (handleSelect (handleSelect emptyRangeState d20240310).1 d20240305).1.rangeEnd ∧
      (handleSelect (hoverSeq (handleSelect emptyRangeState d20240310).1
          [⟨2024, 2, 7⟩, ⟨2024, 2, 20⟩]) d20240305).2
        = (handleSelect (handleSelect emptyRangeState d20240310).1 d20240305).2 ∧
      (handleSelect (hoverSeq (handleSelect emptyRangeState d20240310).1
          [⟨2024, 2, 7⟩, ⟨2024, 2, 20⟩]) d20240305).1.isOpen
        = (handleSelect (handleSelect emptyRangeState d20240310).1 d20240305).1.isOpen :=
  (hover_preserves_committed_range emptyRangeState d20240310 d20240305
    [⟨2024, 2, 7⟩, ⟨2024, 2, 20⟩] rfl (Or.inl rfl)).2.2

/-- C3 counterexample: in an in-progress selection whose provisional
(hover-preview) endpoint is 2024-03-10, isRangeEnd applied to that very
day returns false, although the day is same-day equal to the provisional
endpoint: the boundary markers never consult the hover endpoint. -/
theorem isRangeEnd_ignores_hover_counterexample :
    hoverPreviewState.rangeStart = some d20240305 ∧
      hoverPreviewState.rangeEnd = none ∧
      hoverPreviewState.rangeHover = some d20240310 ∧
      isSameDay d20240310 d20240310 = true ∧
      isRangeEnd hoverPreviewState d20240310 = false := by
  decide

/-- C3 (amended): isRangeStart and isRangeEnd hold exactly when range mode
is active and the day is same-day equal to the stored committed rangeStart
or rangeEnd endpoint respectively; the provisional hover endpoint is never
consulted by either marker. -/
theorem rangeBoundaryMarkers_characterization (s : PickerState) (day : CalDay) :
    (isRangeStart s day = true ↔
        s.isRangeMode = true ∧ ∃ r, s.rangeStart = some r ∧ isSameDay day r = true) ∧
      (isRangeEnd s day = true ↔
        s.isRangeMode = true ∧ ∃ r, s.rangeEnd = some r ∧ isSameDay day r = true) ∧
      (∀ h : Option CalDay,
        isRangeStart { s with rangeHover := h } day = isRangeStart s day ∧
          isRangeEnd { s with rangeHover := h } day = isRangeEnd s day) := by
  refine ⟨?_, ?_, fun h => ⟨rfl, rfl⟩⟩
  · cases hm : s.isRangeMode with
    | false => simp [isRangeStart, hm]
    | true =>
        cases hr : s.rangeStart with
        | none => simp [isRangeStart, hm, hr]
        | some r => simp [isRangeStart, hm, hr]
  · cases hm : s.isRangeMode with
    | false => simp [isRangeEnd, hm]
    | true =>
        cases hr : s.rangeEnd with
        | none => simp [isRangeEnd, hm, hr]
        | some r => simp [isRangeEnd, hm, hr]

lemma setRangeMode_frame (s : PickerState) (c : Bool) :
    (setRangeMode s c).1.selectedDate = s.selectedDate ∧
      (setRangeMode s c).1.rangeStart = s.rangeStart ∧
      (setRangeMode s c).1.rangeEnd = s.rangeEnd ∧
      (setRangeMode s c).1.rangeHover = s.rangeHover := by
  cases c with
  | false => cases hv : s.selectedDate <;> simp [setRangeMode, hv]
  | true =>
      cases hr : s.rangeStart <;> cases ht : s.rangeEnd <;>
        simp [setRangeMode, hr, ht]

/-- C4: in duo mode, each sub-mode flip preserves the stored single-value
and range-value selection state, and in particular flipping to range then
back to single (and symmetrically single then range) leaves the
selectedDate, rangeStart, rangeEnd, and rangeHover slots exactly as they
were before the first flip. -/
theorem modeFlip_preserves_selection_states (s : PickerState) :
    (∀ c : Bool,
        (setRangeMode s c).1.selectedDate = s.selectedDate ∧
          (setRangeMode s c).1.rangeStart = s.rangeStart ∧
          (setRangeMode s c).1.rangeEnd = s.rangeEnd ∧
          (setRangeMode s c).1.rangeHover = s.rangeHover) ∧
      ((setRangeMode (setRangeMode s true).1 false).1.selectedDate = s.selectedDate ∧
        (setRangeMode (setRangeMode s true).1 false).1.rangeStart = s.rangeStart ∧
        (setRangeMode (setRangeMode s true).1 false).1.rangeEnd = s.rangeEnd ∧
        (setRangeMode (setRangeMode s true).1 false).1.rangeHover = s.rangeHover) ∧
      ((setRangeMode (setRangeMode s false).1 true).1.selectedDate = s.selectedDate ∧
        (setRangeMode (setRangeMode s false).1 true).1.rangeStart = s.rangeStart ∧
        (setRangeMode (setRangeMode s false).1 true).1.rangeEnd = s.rangeEnd ∧
        (setRangeMode (setRangeMode s false).1 true).1.rangeHover = s.rangeHover) := by
  refine ⟨setRangeMode_frame s, ?_, ?_⟩
  · obtain ⟨e1, e2, e3, e4⟩ := setRangeMode_frame s true
    obtain ⟨f1, f2, f3, f4⟩ := setRangeMode_frame (setRangeMode s true).1 false
    exact ⟨f1.trans e1, f2.trans e2, f3.trans e3, f4.trans e4⟩
  · obtain ⟨e1, e2, e3, e4⟩ := setRangeMode_frame s false
    obtain ⟨f1, f2, f3, f4⟩ := setRangeMode_frame (setRangeMode s false).1 true
    exact ⟨f1.trans e1, f2.trans e2, f3.trans e3, f4.trans e4⟩

/-- C5: flipping to range mode emits the complete {from, to} range when
both endpoints exist and the undefined value otherwise, and moves the
navigation cursor to the range start when one exists; flipping to single
mode emits the stored single value when one exists and the undefined value
otherwise. -/
theorem setRangeMode_emissions_and_cursor (s : PickerState) :
    (∀ f t : CalDay, s.rangeStart = some f → s.rangeEnd = some t →
        (setRangeMode s true).2
          = Emitted.value (some (DateValue.rangeD (some f) (some t)))) ∧
      (s.rangeStart = none ∨ s.rangeEnd = none →
        (setRangeMode s true).2 = Emitted.value none) ∧
      (∀ r : CalDay, s.rangeStart = some r →
        (setRangeMode s true).1.currentMonth = DateValue.singleD r) ∧
      (s.selectedDate = none → (setRangeMode s false).2 = Emitted.value none) ∧
      (∀ d : CalDay, s.selectedDate = some (DateValue.singleD d) →
        (setRangeMode s false).2 = Emitted.value (some (DateValue.singleD d))) := by
  refine ⟨?_, ?_, ?_, ?_, ?_⟩
  · intro f t h1 h2
    simp [setRangeMode, h1, h2]
  · intro h
    rcases h with h | h
    · simp [setRangeMode, h]
    · cases hr : s.rangeStart <;> simp [setRangeMode, h, hr]
  · intro r h
    simp [setRangeMode, h]
  · intro h
    simp [setRangeMode, h]
  · intro d h
    simp [setRangeMode, h]

/-- C5 witness (Scenario B): in duo mode with single value 2024-01-01 and
no range progress, flipping to range mode emits the undefined value, and
flipping back emits Single(2024-01-01). -/
theorem setRangeMode_emissions_scenarioB :
    (setRangeMode duoSingleState true).2 = Emitted.value none ∧
      (setRangeMode (setRangeMode duoSingleState true).1 false).2
        = Emitted.value (some (DateValue.singleD d20240101)) := by
  refine ⟨(setRangeMode_emissions_and_cursor duoSingleState).2.1 (Or.inl rfl), ?_⟩
  exact (setRangeMode_emissions_and_cursor
    (setRangeMode duoSingleState true).1).2.2.2.2 d20240101 (by decide)

/-- C9: with no reset handler registered, handleReset leaves the state
untouched and emits nothing; with a handler registered it clears the
active engine (selectedDate in single mode; the three range slots in range
mode) and emits the empty value: undefined in single mode, a range with
both endpoints undefined in range mode. -/
theorem handleReset_behavior (s : PickerState) :
    handleReset false s = (s, Emitted.silent) ∧
      (s.isRangeMode = false →
        handleReset true s = ({ s with selectedDate := none }, Emitted.value none)) ∧
      (s.isRangeMode = true →
        handleReset true s =
          ({ s with rangeStart := none, rangeEnd := none, rangeHover := none },
            Emitted.value (some (DateValue.rangeD none none)))) := by
  refine ⟨rfl, ?_, ?_⟩ <;> intro h <;> simp [handleReset, h]

/-- C9 witness: instances of the three reset behaviors at concrete
states: the handler-free no-op, the single-mode clear emitting undefined,
and the range-mode clear emitting the empty range. -/
theorem handleReset_behavior_witness :
    handleReset false emptyRangeState = (emptyRangeState, Emitted.silent) ∧
      handleReset true duoSingleState
        = ({ duoSingleState with selectedDate := none }, Emitted.value none) ∧
      handleReset true completeRangeState
        = ({ completeRangeState with
              rangeStart := none
              rangeEnd := none
              rangeHover := none },
            Emitted.value (some (DateValue.rangeD none none))) :=
  ⟨(handleReset_behavior emptyRangeState).1,
    (handleReset_behavior duoSingleState).2.1 rfl,
    (handleReset_behavior completeRangeState).2.2 rfl⟩

/-- C10: the value-synchronization effect is the identity on the whole
state for any controlled value that is a Date instance: a Date has JS
typeof object, so the non-object branch is unreachable, and it owns no
from key, so the range-shaped branch is skipped; only range-shaped values
ever overwrite rangeStart and rangeEnd. -/
theorem valueSync_single_preserves_range (s : PickerState) (d : CalDay) :
    valueSyncEffect (some (DateValue.singleD d)) s = s ∧
      typeofIsObject (DateValue.singleD d) = true ∧
      hasFromKey (DateValue.singleD d) = false :=
  ⟨rfl, rfl, rfl⟩
